import Mathlib

/-!
Shallow embedding of the sprite_tools repository (animator.py, extractor.py).

Images are modelled as rectangular lists of rows of pixels; 8-bit channel
values are natural numbers with explicit `% 256` wherever the numpy code
stores into a uint8 buffer.  Python's float arithmetic in the compositing
and averaging code is modelled exactly over `ℚ`; every input used in the
theorems below makes the corresponding float computation exact, so the
rational model coincides with the source there.  Python exceptions are
modelled as `none` (or `Except.error`); a plain Python `return None` is
also `none` but is documented at each definition.
-/

set_option autoImplicit false
set_option maxRecDepth 40000

namespace SpriteTools

/-- A 3-channel (B, G, R) pixel. -/
abbrev Pixel3 := ℕ × ℕ × ℕ

/-- A 4-channel (B, G, R, A) pixel. -/
abbrev Pixel4 := ℕ × ℕ × ℕ × ℕ

/-- A 3-channel image: list of rows of pixels. -/
abbrev Img3 := List (List Pixel3)

/-- A 4-channel image. -/
abbrev Img4 := List (List Pixel4)

/-- Python list slicing `l[a:b]` with step 1: negative indices count from the
end, out-of-range bounds are clamped, an empty range yields `[]`. -/
def pySlice {α : Type} (l : List α) (a b : ℤ) : List α :=
  let n : ℤ := l.length
  let lo := if a < 0 then max 0 (n + a) else min a n
  let hi := if b < 0 then max 0 (n + b) else min b n
  (l.take hi.toNat).drop lo.toNat

/-- Replace the element at index `n` (in-place list update). -/
def listModify {α : Type} : List α → ℕ → (α → α) → List α
  | [], _, _ => []
  | a :: as, 0, f => f a :: as
  | a :: as, n + 1, f => a :: listModify as n f

/-- Sequence a fallible map over a list, failing if any element fails
(models a Python loop in which an iteration may raise). -/
def optMap {α β : Type} (f : α → Option β) : List α → Option (List β)
  | [] => some []
  | a :: as =>
    match f a, optMap f as with
    | some b, some bs => some (b :: bs)
    | _, _ => none

/-- numpy-style shape of a rectangular list-of-rows grid: (rows, cols). -/
def gridDims {α : Type} (g : List (List α)) : ℕ × ℕ :=
  (g.length, (g.headD []).length)

/-! ## animator.py : Frame transform steps -/

/-- `np.fliplr`: mirror each row. -/
def fliplr {α : Type} (img : List (List α)) : List (List α) :=
  img.map List.reverse

/-- `np.flipud`: reverse the row order. -/
def flipud {α : Type} (img : List (List α)) : List (List α) :=
  img.reverse

/-- `Frame._flipSprite`, verbatim from the source: the horizontal branch
assigns `np.fliplr(sprite)`, and the vertical branch assigns
`np.flipud(sprite)` — of the *original* `sprite`, not of the intermediate
`spriteFlipped`. -/
def flipSprite (sprite : Img3) (flipTuple : Bool × Bool) : Img3 :=
  let spriteFlipped := sprite
  let spriteFlipped := if flipTuple.1 then fliplr sprite else spriteFlipped
  let spriteFlipped := if flipTuple.2 then flipud sprite else spriteFlipped
  spriteFlipped

/-- `Frame._scaleSprite`: `np.kron` of each channel plane with a
`scale × scale` all-ones block, i.e. each pixel becomes a `k × k` block. -/
def scaleSprite (sprite : Img3) (scaleFactor : ℕ) : Img3 :=
  sprite.flatMap fun row =>
    List.replicate scaleFactor (row.flatMap fun px => List.replicate scaleFactor px)

/-- `Frame._rotateSprite` for `rotation = 0` (the only angle at which
`cv2.getRotationMatrix2D`/`cv2.warpAffine` are exact: the matrix is the
identity, the bounding box is unchanged, and the returned position equals
the integer arithmetic below).  Nonzero angles go through cv2's floating
point resampling and are left unmodelled (`none`). -/
def rotateSprite (sprite : Img3) (rotation : ℤ) (position : ℤ × ℤ) :
    Option (Img3 × (ℤ × ℤ)) :=
  if rotation = 0 then
    let rowCount : ℤ := sprite.length
    let columnCount : ℤ := (sprite.headD []).length
    let cXR := columnCount.fdiv 2
    let cYR := rowCount.fdiv 2
    let cXA := position.1 + cXR
    let cYA := position.2 + cYR
    let newWidth := columnCount
    let newHeight := rowCount
    let newPos := (cXA - newWidth.fdiv 2, cYA - newHeight.fdiv 2)
    some (sprite, newPos)
  else none

/-- Python 2 `round`: half away from zero; equal to half-up on the
nonnegative values produced by `255 * alpha` for `alpha ∈ [0, 1]`. -/
def pyRound (q : ℚ) : ℤ := Int.floor (q + 1 / 2)

/-- `astype(np.uint8)` of a float that is nonnegative (as all values cast
in this pipeline are): truncation toward zero, then wrap modulo 256. -/
def toUint8 (q : ℚ) : ℕ := ((Int.floor q).emod 256).toNat

/-- `Frame._alphaSprite`: add an alpha channel; pixels whose B, G and R all
equal the frame's `alphaChannel` value get alpha 0 (`np.all` over the
per-channel equality mask), every other pixel gets `int(round(255*alpha))`
stored into a uint8 plane. -/
def alphaSprite (alphaChannel : ℕ) (sprite : Img3) (alpha : ℚ) : Img4 :=
  let aVal : ℕ := ((pyRound (255 * alpha)).emod 256).toNat
  sprite.map (List.map fun p =>
    (p.1, p.2.1, p.2.2,
      if p.1 = alphaChannel ∧ p.2.1 = alphaChannel ∧ p.2.2 = alphaChannel
      then 0 else aVal))

/-- Per-pixel over-compositing from `Frame._layerSprite` lines 291-343:
normalized alphas `a/255`, `newAlpha = 1 - (1-a_s)(1-a_f)`, per-channel
`(a_s·c_s + (a_f·c_f)·(1-a_s)) / newAlpha`, results cast to uint8.
`newAlpha = 0` makes numpy produce NaN (undefined uint8 cast): `none`. -/
def compositePixel (s f : Pixel4) : Option Pixel4 :=
  let sNorm : ℚ := (s.2.2.2 : ℚ) / 255
  let fNorm : ℚ := (f.2.2.2 : ℚ) / 255
  let newAlpha : ℚ := 1 - (1 - sNorm) * (1 - fNorm)
  if newAlpha = 0 then none
  else
    let ch : ℕ → ℕ → ℕ := fun cs cf =>
      toUint8 ((sNorm * cs + (fNorm * cf) * (1 - sNorm)) / newAlpha)
    some (ch s.1 f.1, ch s.2.1 f.2.1, ch s.2.2.1 f.2.2.1,
      toUint8 (newAlpha * 255))

/-- Composite two equal-shaped cropped regions pixelwise. -/
def compositeGrid (sp fr : Img4) : Option Img4 :=
  optMap (fun rp => optMap (fun pq => compositePixel pq.1 pq.2) (rp.1.zip rp.2))
    (sp.zip fr)

/-- Overwrite the segment of `row` starting at column `x1` with `new`
(numpy row-slice assignment; in all reachable uses the segment fits). -/
def setSeg {α : Type} : List α → ℕ → List α → List α
  | [], _, _ => []
  | r :: rs, 0, [] => r :: rs
  | _ :: rs, 0, n :: ns => n :: setSeg rs 0 ns
  | r :: rs, x + 1, new => r :: setSeg rs x new

/-- Overwrite the rectangle of `frame` with top-left `(y1, x1)` by `comp`
(numpy 2-D slice assignment `frame[y1:y2, x1:x2] = comp`). -/
def pasteGrid {α : Type} : List (List α) → ℕ → ℕ → List (List α) → List (List α)
  | [], _, _, _ => []
  | f :: fs, Nat.succ y, x1, comp => f :: pasteGrid fs y x1 comp
  | f :: fs, 0, _, [] => f :: fs
  | f :: fs, 0, x1, c :: cs => setSeg f x1 c :: pasteGrid fs 0 x1 cs

/-- `Frame._layerSprite`: crop sprite and frame to their overlap (the four
border adjustments verbatim from the source), composite the overlap, and
paste it back.  When the adjusted crop height or width is negative —
which happens exactly when the sprite lies strictly outside the frame —
`np.ones((cropHeight, cropWidth))` raises `ValueError: negative dimensions
are not allowed`, modelled as `none`. -/
def layerSprite (sprite frame : Img4) (position : ℤ × ℤ) : Option Img4 :=
  let rowCount : ℤ := sprite.length
  let columnCount : ℤ := (sprite.headD []).length
  let frameH : ℤ := frame.length
  let frameW : ℤ := (frame.headD []).length
  let cropY1 := position.2
  let cropY2 := position.2 + rowCount
  let cropX1 := position.1
  let cropX2 := position.1 + columnCount
  let cropSpriteY1 : ℤ := if cropY1 < 0 then -cropY1 else 0
  let cropY1 := if cropY1 < 0 then 0 else cropY1
  let cropSpriteX1 : ℤ := if cropX1 < 0 then -cropX1 else 0
  let cropX1 := if cropX1 < 0 then 0 else cropX1
  let cropSpriteY2 : ℤ := if cropY2 > frameH then rowCount - (cropY2 - frameH) else rowCount
  let cropY2 := if cropY2 > frameH then frameH else cropY2
  let cropSpriteX2 : ℤ := if cropX2 > frameW then columnCount - (cropX2 - frameW) else columnCount
  let cropX2 := if cropX2 > frameW then frameW else cropX2
  let frameCropped := (pySlice frame cropY1 cropY2).map fun row => pySlice row cropX1 cropX2
  let spriteCropped := (pySlice sprite cropSpriteY1 cropSpriteY2).map fun row =>
    pySlice row cropSpriteX1 cropSpriteX2
  let cropHeight := cropSpriteY2 - cropSpriteY1
  let cropWidth := cropSpriteX2 - cropSpriteX1
  if cropHeight < 0 ∨ cropWidth < 0 then none
  else (compositeGrid spriteCropped frameCropped).map (pasteGrid frame cropY1.toNat cropX1.toNat)

/-! ## animator.py : Frame instruction buffer, save, render -/

/-- The per-frame instruction dictionary `{'image': [...], 'position': [...],
'alpha': [...], 'rotation': [...], 'scale': [...], 'flip': [...]}`. -/
structure Instr where
  image : List Img3
  position : List (ℤ × ℤ)
  alpha : List ℚ
  rotation : List ℤ
  scale : List ℕ
  flip : List (Bool × Bool)
deriving DecidableEq, Repr

/-- `{key: [] for key in self.instrKeys}`. -/
def emptyInstr : Instr := ⟨[], [], [], [], [], []⟩

/-- Heap-explicit state of a `Frame` object: `store` is the set of
instruction-dictionary objects ever allocated (addresses are indices),
`frameList` holds *references* into `store` (Python lists hold object
references), and `instrAddr` is the reference held by `self.instr`. -/
structure FrameState where
  store : List Instr
  frameList : List ℕ
  instrAddr : ℕ
deriving DecidableEq, Repr

/-- `Frame.__init__`: one fresh empty instruction dict, empty frame list. -/
def frameNew : FrameState := ⟨[emptyInstr], [], 0⟩

/-- `Frame.add`: append one value to each list of the *current* instruction
dict (mutation through the `self.instr` reference). -/
def frameAdd (s : FrameState) (img : Img3) (pos : ℤ × ℤ) (a : ℚ) (rot : ℤ)
    (sc : ℕ) (fl : Bool × Bool) : FrameState :=
  { s with
    store := listModify s.store s.instrAddr fun d =>
      ⟨d.image ++ [img], d.position ++ [pos], d.alpha ++ [a],
       d.rotation ++ [rot], d.scale ++ [sc], d.flip ++ [fl]⟩ }

/-- `Frame.save(repeatFrames)`: append the *same* `self.instr` reference
`repeatFrames` times to `frameList`, then rebind `self.instr` to a freshly
allocated empty dict. -/
def frameSave (s : FrameState) (repeatFrames : ℕ) : FrameState :=
  ⟨s.store ++ [emptyInstr],
   s.frameList ++ List.replicate repeatFrames s.instrAddr,
   s.store.length⟩

/-- Dereference committed frame `i`: the instruction dict that
`self.frameList[i]` points to. -/
def getCommitted (s : FrameState) (i : ℕ) : Option Instr :=
  (s.frameList.get? i).bind fun a => s.store.get? a

/-- Mutate the object referenced by committed frame `i` (as
`Frame.render` does with `curFrame['position'] = [...]`). -/
def mutateCommitted (s : FrameState) (i : ℕ) (f : Instr → Instr) : FrameState :=
  match s.frameList.get? i with
  | none => s
  | some a => { s with store := listModify s.store a f }

/-- The `Frame` attribute set by `__init__` (`self.alphaChannel = 0`). -/
structure FrameCfg where
  alphaChannel : ℕ
deriving DecidableEq, Repr

/-- A freshly constructed `Frame`. -/
def frameDefault : FrameCfg := ⟨0⟩

/-- `Frame.setAlpha` is declared as `def setAlpha(channel)` — without a
`self` parameter.  A bound call `frame.setAlpha(c)` therefore passes the
instance as `channel` plus `c` as an unexpected second argument and raises
`TypeError` before any attribute is assigned (an argumentless call would
instead hit `NameError` on the undefined `self`). -/
def frameSetAlpha (_f : FrameCfg) (_channel : ℕ) : Except String FrameCfg :=
  Except.error "TypeError"

/-- White opaque canvas `np.ones(shape, np.uint8) * 255` of the given
(4-channel) shape. -/
def whiteCanvas (rows cols : ℕ) : Img4 :=
  List.replicate rows (List.replicate cols (255, 255, 255, 255))

/-- `frame[:, :, 0:3]` as passed to `cv2.imwrite`: drop the alpha plane. -/
def dropAlpha (img : Img4) : Img3 :=
  img.map (List.map fun p => (p.1, p.2.1, p.2.2.1))

/-- One object of a committed frame, as tupled by zipping the six
instruction lists (image, position, alpha, rotation, scale, flip). -/
abbrev ObjInstr := Img3 × ((ℤ × ℤ) × (ℚ × (ℤ × (ℕ × (Bool × Bool)))))

/-- Process one object through the render transform chain in source order:
flip, scale, rotate (which also recomputes the position), alpha. -/
def processObj (key : ℕ) (o : ObjInstr) : Option (Img4 × (ℤ × ℤ)) :=
  (rotateSprite (scaleSprite (flipSprite o.1 o.2.2.2.2.2) o.2.2.2.2.1) o.2.2.2.1 o.2.1).map
    fun rp => (alphaSprite key rp.1 o.2.2.1, rp.2)

/-- All objects of one committed frame, transformed.  `render` indexes every
instruction list over `range(len(curFrame['image']))`, so a list shorter
than the image list raises `IndexError` (`none`); longer lists have their
extra entries ignored, which the zip with the image list reproduces. -/
def frameObjs (key : ℕ) (f : Instr) : Option (List (Img4 × (ℤ × ℤ))) :=
  if f.position.length < f.image.length ∨ f.alpha.length < f.image.length ∨
      f.rotation.length < f.image.length ∨ f.scale.length < f.image.length ∨
      f.flip.length < f.image.length then none
  else
    optMap (processObj key)
      (f.image.zip (f.position.zip (f.alpha.zip (f.rotation.zip (f.scale.zip f.flip)))))

/-- Layer the transformed sprites onto the canvas in instruction order. -/
def layerFold : List (Img4 × (ℤ × ℤ)) → Img4 → Option Img4
  | [], acc => some acc
  | o :: os, acc =>
    match layerSprite o.1 acc o.2 with
    | none => none
    | some acc' => layerFold os acc'

/-- One iteration of `Frame.render`'s frame loop: transform all objects,
build the canvas `np.ones(frameElement[0].shape)*255` — sized from *this*
frame's first transformed sprite (`IndexError`, i.e. `none`, when the frame
has no instructions) — layer every sprite, and drop alpha for the write.
The loop's in-place rewrite of `curFrame['position']` stores exactly the
original positions at rotation 0, the only angle modelled here, so it does
not alter this function's value; its aliasing consequences across repeated
frames are modelled separately by `FrameState`. -/
def renderFrame (key : ℕ) (f : Instr) : Option Img3 :=
  match frameObjs key f with
  | none => none
  | some objs =>
    match objs with
    | [] => none
    | first :: _ =>
      let canvas := whiteCanvas (gridDims first.1).1 (gridDims first.1).2
      match layerFold objs canvas with
      | none => none
      | some final => some (dropAlpha final)

/-- `Frame.render`, with file output abstracted to the list of written
frame buffers (one per committed frame, in order). -/
def render (key : ℕ) (frameList : List Instr) : Option (List Img3) :=
  optMap (renderFrame key) frameList

/-! ## animator.py : FrameElement -/

/-- The mutable cursor of a `FrameElement`. -/
structure FrameElementState where
  curSpriteIndex : ℤ
deriving DecidableEq, Repr

/-- `FrameElement.setCurSprite`, verbatim: first
`self.curSpriteIndex += startIndex`, then either one more increment (when
still below `len(eventDict[eventName]) - 1`) or a reset to `-1`; the new
cursor value is stored and returned. -/
def setCurSprite (fe : FrameElementState) (eventLen : ℕ) (startIndex : ℤ) :
    FrameElementState × ℤ :=
  let s1 : FrameElementState := { fe with curSpriteIndex := fe.curSpriteIndex + startIndex }
  if s1.curSpriteIndex < (eventLen : ℤ) - 1 then
    let s2 : FrameElementState := { s1 with curSpriteIndex := s1.curSpriteIndex + 1 }
    (s2, s2.curSpriteIndex)
  else
    let s2 : FrameElementState := { s1 with curSpriteIndex := -1 }
    (s2, s2.curSpriteIndex)

/-! ## extractor.py : Extractor -/

/-- `Extractor.cropSprite`: slice every frame to
`[cropY:cropY+cropHeight, cropX:cropX+cropWidth]`.  On an empty input list
the source prints an error message and executes a bare `return`, i.e. it
returns Python `None` (it does not raise): modelled as `none`. -/
def cropSprite (sprites : List Img3) (cropX cropY cropWidth cropHeight : ℤ) :
    Option (List Img3) :=
  if sprites.length > 0 then
    some (sprites.map fun x =>
      (pySlice x cropY (cropY + cropHeight)).map fun row =>
        pySlice row cropX (cropX + cropWidth))
  else none

/-- `Extractor.saveSprite` with file I/O abstracted to the indexed list of
buffers written.  On an empty input list the source prints an error message
and falls through returning `None` (no file written): modelled as `none`. -/
def saveSprite (sprites : List Img3) : Option (List (ℕ × Img3)) :=
  if sprites.length > 0 then some sprites.enum else none

/-- Per-channel mean of a block: `np.mean` over axis 0 twice equals the
mean over the whole rectangular block, and `astype(int)` truncates the
(here exact) nonnegative double toward zero, which is natural-number
division of the channel sum by the pixel count; `% 256` is the final uint8
store.  An empty block makes `np.mean` produce NaN, whose integer cast is
undefined: `none`. -/
def blockMean (blk : List (List Pixel3)) : Option Pixel3 :=
  let px := blk.flatten
  if px.length = 0 then none
  else
    some (((px.map fun p => p.1).sum / px.length) % 256,
          ((px.map fun p => p.2.1).sum / px.length) % 256,
          ((px.map fun p => p.2.2).sum / px.length) % 256)

/-- `Extractor.cleanSprite` body for one frame, verbatim including the
slice bounds `cut[1] : newHeight - cut[1]` and `cut[2] : newWidth - cut[0]`
(the source's own comment says the remainder is removed from each edge, but
these bounds remove `cut[1]` twice from the vertical extent and `cut[0]`
twice from the horizontal one).  `spritePixelSize = 0` raises
`ZeroDivisionError`; negative output dims make `np.zeros` raise. -/
def cleanOne (pixelRef : ℤ × ℤ) (spritePixelSize : ℕ) (curSprite : Img3) :
    Option Img3 :=
  if spritePixelSize = 0 then none
  else
    let rowCount : ℤ := curSprite.length
    let columnCount : ℤ := (curSprite.headD []).length
    let cut0 := (columnCount - pixelRef.1).emod spritePixelSize
    let cut1 := (pixelRef.2).emod spritePixelSize
    let cut2 := (pixelRef.1).emod spritePixelSize
    let cut3 := (rowCount - pixelRef.2).emod spritePixelSize
    let newHeight := rowCount - (cut1 + cut3)
    let newWidth := columnCount - (cut0 + cut2)
    let spriteCropped := (pySlice curSprite cut1 (newHeight - cut1)).map fun row =>
      pySlice row cut2 (newWidth - cut0)
    let nh := newHeight.fdiv spritePixelSize
    let nw := newWidth.fdiv spritePixelSize
    if nh < 0 ∨ nw < 0 then none
    else
      optMap (fun y =>
        optMap (fun x =>
          blockMean ((pySlice spriteCropped (spritePixelSize * y) (spritePixelSize * (y + 1))).map
            fun row => pySlice row (spritePixelSize * x) (spritePixelSize * (x + 1))))
          ((List.range nw.toNat).map fun x => (x : ℤ)))
        ((List.range nh.toNat).map fun y => (y : ℤ))

/-- `Extractor.cleanSprite` over a frame list. -/
def cleanSprite (sprites : List Img3) (pixelRef : ℤ × ℤ) (spritePixelSize : ℕ) :
    Option (List Img3) :=
  optMap (cleanOne pixelRef spritePixelSize) sprites

/-- Read a grid cell; `none` when out of bounds. -/
def getg (g : List (List ℕ)) (y x : ℤ) : Option ℕ :=
  if y < 0 ∨ x < 0 then none
  else (g.get? y.toNat).bind fun row => row.get? x.toNat

/-- Write a grid cell (no-op out of bounds; never reached negative). -/
def setg (g : List (List ℕ)) (y x : ℤ) (v : ℕ) : List (List ℕ) :=
  if y < 0 ∨ x < 0 then g
  else listModify g y.toNat fun row => listModify row x.toNat fun _ => v

/-- The in-bounds values of the 5×5 neighbourhood centred at `(y, x)` —
the `np.ones((5,5), np.uint8)` structuring element of the source; cv2's
default morphology border value makes out-of-bounds cells neutral. -/
def neighborhood5 (g : List (List ℕ)) (y x : ℤ) : List ℕ :=
  ([-2, -1, 0, 1, 2] : List ℤ).flatMap fun dy =>
    ([-2, -1, 0, 1, 2] : List ℤ).filterMap fun dx => getg g (y + dy) (x + dx)

/-- `cv2.dilate` with the 5×5 kernel on a binary 0/255 grid. -/
def dilate5 (g : List (List ℕ)) : List (List ℕ) :=
  g.mapIdx fun y row => row.mapIdx fun x _ => (neighborhood5 g y x).foldl max 0

/-- `cv2.erode` with the 5×5 kernel on a binary 0/255 grid. -/
def erode5 (g : List (List ℕ)) : List (List ℕ) :=
  g.mapIdx fun y row => row.mapIdx fun x _ => (neighborhood5 g y x).foldl min 255

/-- Row-major coordinates of a grid. -/
def gridCoords (g : List (List ℕ)) : List (ℕ × ℕ) :=
  (g.mapIdx fun y row => row.mapIdx fun x _ => (y, x)).flatten

/-- Depth-first flood fill of one connected component (4-connectivity, the
default `scipy.ndimage.label` structuring element), fuelled by the work
list; visited cells are those already carrying a nonzero label. -/
def floodFill (g : List (List ℕ)) (lab : ℕ) :
    ℕ → List (ℤ × ℤ) → List (List ℕ) → List (List ℕ)
  | 0, _, labels => labels
  | _ + 1, [], labels => labels
  | fuel + 1, (y, x) :: rest, labels =>
    if (getg g y x).getD 0 ≠ 0 ∧ (getg labels y x).getD 1 = 0 then
      floodFill g lab fuel
        ((y - 1, x) :: (y + 1, x) :: (y, x - 1) :: (y, x + 1) :: rest)
        (setg labels y x lab)
    else floodFill g lab fuel rest labels

/-- `scipy.ndimage.label`: scan row-major, assigning labels 1, 2, … to the
4-connected components of the nonzero cells (zero cells keep label 0). -/
def label4 (g : List (List ℕ)) : List (List ℕ) :=
  let fuel := 8 * (g.flatten.length + 1)
  ((gridCoords g).foldl (fun st yx =>
      if (getg g yx.1 yx.2).getD 0 ≠ 0 ∧ (getg st.1 yx.1 yx.2).getD 1 = 0 then
        (floodFill g st.2 fuel [((yx.1 : ℤ), (yx.2 : ℤ))] st.1, st.2 + 1)
      else st)
    (g.map (List.map fun _ => 0), 1)).1

/-- `np.unique(..., return_counts=True)`: the distinct values in ascending
order, each with its multiplicity. -/
def uniqueCounts (l : List ℕ) : List (ℕ × ℕ) :=
  (List.range (l.foldl max 0 + 1)).filterMap fun v =>
    let c := l.count v
    if c > 0 then some (v, c) else none

/-- `np.argmax`: index of the first occurrence of the maximum. -/
def argmaxAux : List ℕ → ℕ → ℕ → ℕ → ℕ
  | [], bi, _, _ => bi
  | v :: vs, bi, bv, i =>
    if v > bv then argmaxAux vs i v (i + 1) else argmaxAux vs bi bv (i + 1)

/-- `np.argmax` over a nonempty list (numpy raises on an empty one, which
callers below check for). -/
def argmaxFirst : List ℕ → ℕ
  | [] => 0
  | v :: vs => argmaxAux vs 0 v 1

/-- uint8 `np.subtract(background, limit)`: wraps modulo 256. -/
def subWrap (v limit : ℕ) : ℕ := (((v : ℤ) - limit).emod 256).toNat

/-- `Extractor.isolateSprite` body for one frame.  `background` is a uint8
image, so `np.add(background, limit)` and `np.subtract(background, limit)`
wrap modulo 256 (e.g. 255 + 10 ≡ 9).  The foreground mask is
`any-channel-outside-[lower, upper]`; it is dilated, eroded and dilated
with the 5×5 kernel, labelled, and the label of first-maximal pixel count
(over *all* labels, the zero label included, unless `areaToggle` deletes
the first argmax) masks the returned frame; the selected label value is
written into a uint8 mask array before `np.equal`, hence its `% 256`.
`np.argmax` of the emptied count list raises `ValueError`: `none`. -/
def isolateOne (background : Img3) (limit : ℕ) (areaToggle : Bool)
    (curSprite : Img3) : Option Img3 :=
  let upper := background.map (List.map fun p =>
    ((p.1 + limit) % 256, (p.2.1 + limit) % 256, (p.2.2 + limit) % 256))
  let lower := background.map (List.map fun p =>
    (subWrap p.1 limit, subWrap p.2.1 limit, subWrap p.2.2 limit))
  let inR : ℕ → ℕ → ℕ → Bool := fun v lo hi => decide (v ≤ hi ∧ lo ≤ v)
  let n : List (List Bool) :=
    (curSprite.zip (upper.zip lower)).map fun rr =>
      (rr.1.zip (rr.2.1.zip rr.2.2)).map fun pp =>
        !(inR pp.1.1 pp.2.2.1 pp.2.1.1) || !(inR pp.1.2.1 pp.2.2.2.1 pp.2.1.2.1) ||
          !(inR pp.1.2.2 pp.2.2.2.2 pp.2.1.2.2)
  let n2 := n.map (List.map fun b => if b then (255 : ℕ) else 0)
  let n2 := dilate5 n2
  let n2 := erode5 n2
  let n2 := dilate5 n2
  let labelArray := label4 n2
  let uniq := uniqueCounts labelArray.flatten
  match uniq with
  | [] => none
  | _ :: _ =>
    let backgroundIndex := argmaxFirst (uniq.map fun p => p.2)
    let uniqueLabel := if areaToggle then (uniq.map fun p => p.1).eraseIdx backgroundIndex
      else uniq.map fun p => p.1
    let labelCount := if areaToggle then (uniq.map fun p => p.2).eraseIdx backgroundIndex
      else uniq.map fun p => p.2
    match labelCount with
    | [] => none
    | _ :: _ =>
      let spriteAreaIndex := argmaxFirst labelCount
      let lab := uniqueLabel.getD spriteAreaIndex 0 % 256
      some ((curSprite.zip labelArray).map fun rr =>
        (rr.1.zip rr.2).map fun pl => if pl.2 = lab then pl.1 else (0, 0, 0))

/-- `Extractor.isolateSprite` over a frame list (the limit arrays are
computed once up front, which per frame is what the body above uses). -/
def isolateSprite (sprites : List Img3) (background : Img3) (limit : ℕ)
    (areaToggle : Bool) : Option (List Img3) :=
  optMap (isolateOne background limit areaToggle) sprites

/-! ## Concrete inputs used by the theorems -/

/-- A 2×2 opaque grey sprite (post-alpha, 4-channel). -/
def greySprite2 : Img4 := List.replicate 2 (List.replicate 2 (9, 9, 9, 255))

/-- A committed frame whose single (bottom-layer) sprite is 1×1. -/
def cFrame0 : Instr := ⟨[[[(1, 2, 3)]]], [(0, 0)], [1], [0], [1], [(false, false)]⟩

/-- A committed frame whose single (bottom-layer) sprite is 2×2. -/
def cFrame1 : Instr :=
  ⟨[[[(9, 9, 9), (9, 9, 9)], [(9, 9, 9), (9, 9, 9)]]], [(0, 0)], [1], [0], [1],
   [(false, false)]⟩

/-- Rendered output of `cFrame0`. -/
def cOut0 : Img3 := [[(1, 2, 3)]]

/-- Rendered output of `cFrame1`. -/
def cOut1 : Img3 := [[(9, 9, 9), (9, 9, 9)], [(9, 9, 9), (9, 9, 9)]]

/-- A 7×7 image whose row `r` is uniformly `(10r, 10r, 10r)`. -/
def img7 : Img3 := (List.range 7).map fun r => List.replicate 7 (10 * r, 10 * r, 10 * r)

/-- A 12×12 block-uniform image: each 3×3 block row has the constant value
`10·(r/3)` (the spec's working `cleanPixelation` scenario). -/
def img12 : Img3 :=
  (List.range 12).map fun r => List.replicate 12 (10 * (r / 3), 10 * (r / 3), 10 * (r / 3))

/-- The 10×10 white frame with a 2×2 black square at `(4, 4)` from the
spec's isolation scenario. -/
def frame10 : Img3 :=
  (List.range 10).map fun y => (List.range 10).map fun x =>
    if 4 ≤ y ∧ y ≤ 5 ∧ 4 ≤ x ∧ x ≤ 5 then (0, 0, 0) else (255, 255, 255)

/-- The all-white 10×10 background reference. -/
def whiteBg10 : Img3 := List.replicate 10 (List.replicate 10 (255, 255, 255))

/-- The output the spec's scenario expects: all-zero except the 2×2 black
square at `(4, 4)` — whose pixels are themselves `(0, 0, 0)`. -/
def zeros10 : Img3 := List.replicate 10 (List.replicate 10 (0, 0, 0))

/-- A `Frame` on which one instruction has been added. -/
def addedState : FrameState :=
  frameAdd frameNew [[(1, 1, 1)]] (0, 0) 1 0 1 (false, false)

/-- `addedState` after `save(repeatFrames=2)`. -/
def savedState : FrameState := frameSave addedState 2

/-- `savedState` after the position list of committed frame 0 is rewritten
(the in-place `curFrame['position'] = [...]` that `render` performs). -/
def mutatedState : FrameState :=
  mutateCommitted savedState 0 fun d => { d with position := [(9, 9)] }

/-- Invariant of every reachable `FrameState`: `self.instr` is the most
recently allocated dict and every committed reference points to an earlier
allocation. -/
def FrameInv (s : FrameState) : Prop :=
  s.instrAddr + 1 = s.store.length ∧ ∀ a ∈ s.frameList, a < s.instrAddr

/-! ## Theorems -/

/-- A fully opaque source pixel over the opaque canvas pixel: the source
channels come through exactly (`sNorm = 1`, `newAlpha = 1`). -/
theorem compositePixel_opaque_src (b g r bd gd rd : ℕ) (hb : b < 256)
    (hg : g < 256) (hr : r < 256) :
    compositePixel (b, g, r, 255) (bd, gd, rd, 255) = some (b, g, r, 255) := by
  simp only [compositePixel, toUint8]
  norm_num [Int.floor_natCast]
  simp only [show ∀ x : ℤ, x.emod 256 = x % 256 from fun x => rfl]
  omega

/-- A fully transparent source pixel over the opaque canvas pixel: the
destination channels come through exactly (`sNorm = 0`, `newAlpha = 1`). -/
theorem compositePixel_transparent_src (b g r bd gd rd : ℕ) (hbd : bd < 256)
    (hgd : gd < 256) (hrd : rd < 256) :
    compositePixel (b, g, r, 0) (bd, gd, rd, 255) = some (bd, gd, rd, 255) := by
  simp only [compositePixel, toUint8]
  norm_num [Int.floor_natCast]
  simp only [show ∀ x : ℤ, x.emod 256 = x % 256 from fun x => rfl]
  omega

/-- The uint8 alpha value written for `alpha = 1`: `round(255·1) = 255`. -/
theorem alphaVal_one : ((pyRound (255 : ℚ)).emod 256).toNat = 255 := by
  norm_num [pyRound]
  rfl

/-- C1: layering a sprite that lies wholly outside the canvas does not
leave the canvas unmodified — the source's crop arithmetic produces a
negative crop width (position `(5, 0)`, sprite wholly right of a 4×4
canvas) or a negative crop height (position `(0, -3)`, sprite wholly above
it), and `np.ones((cropHeight, cropWidth))` raises `ValueError`, aborting
the render instead of blending nothing.  A partially off-canvas sprite
(position `(3, 3)`) is, as claimed, clipped to the 1×1 overlap and blended
only there. -/
theorem layerSprite_fully_off_canvas_err :
    layerSprite greySprite2 (whiteCanvas 4 4) (5, 0) = none ∧
    layerSprite greySprite2 (whiteCanvas 4 4) (0, -3) = none ∧
    layerSprite greySprite2 (whiteCanvas 4 4) (3, 3) =
      some [List.replicate 4 (255, 255, 255, 255), List.replicate 4 (255, 255, 255, 255),
        List.replicate 4 (255, 255, 255, 255),
        [(255, 255, 255, 255), (255, 255, 255, 255), (255, 255, 255, 255), (9, 9, 9, 255)]] := by
  refine ⟨rfl, rfl, ?_⟩
  have h9 : compositePixel (9, 9, 9, 255) (255, 255, 255, 255) = some (9, 9, 9, 255) :=
    compositePixel_opaque_src 9 9 9 255 255 255 (by norm_num) (by norm_num) (by norm_num)
  simp [layerSprite, compositeGrid, optMap, pySlice, pasteGrid, setSeg, whiteCanvas,
    greySprite2, h9]

/-- C6: evaluating `_flipSprite` with both flip flags set returns the input
row unchanged (the vertical branch overwrites the intermediate with
`np.flipud(sprite)` of the *original*, discarding the horizontal mirror),
whereas the claimed composition of both mirrors reverses the row. -/
theorem flipSprite_both_flags_run :
    flipSprite [[(1, 1, 1), (2, 2, 2)]] (true, true) = [[(1, 1, 1), (2, 2, 2)]] ∧
    flipud (fliplr [[(1, 1, 1), (2, 2, 2)]]) = [[(2, 2, 2), (1, 1, 1)]] := by
  constructor <;> rfl

/-- C8: calling the alpha-key setter raises `TypeError` (the method is
declared without `self`), so the chroma key is not configurable and stays
at the constructor's 0; with that default key, `_alphaSprite` does key
pixels whose B = G = R = 0 to alpha 0 and gives `round(255·alpha)` to the
rest. -/
theorem setAlpha_missing_self_run :
    frameSetAlpha frameDefault 60 = Except.error "TypeError" ∧
    alphaSprite frameDefault.alphaChannel [[(5, 5, 5), (0, 0, 0)]] 1 =
      [[(5, 5, 5, 255), (0, 0, 0, 0)]] := by
  refine ⟨rfl, ?_⟩
  simp [alphaSprite, frameDefault, alphaVal_one]

/-- C5: `cleanSprite` on the 7×7 image `img7` with `blockSize = 3` and
`pixelRefPoint = (1, 1)` keeps only 4 rows and 5 columns (the faulty slice
bounds remove the top remainder a second time from the bottom and the
right remainder a second time from the right), so the bottom output blocks
average a 1-row strip of value 40 instead of the full 3×3 blocks of mean
50 that per-edge trimming would give.  When the top and right remainders
are zero — as in the spec's 12×12, `blockSize = 3`, `pixelRefPoint = (0,0)`
scenario — the faulty bounds are harmless and each output pixel is the
mean of its source 3×3 block. -/
theorem cleanSprite_trim_bug_run :
    cleanSprite [img7] (1, 1) 3 =
      some [[[(20, 20, 20), (20, 20, 20)], [(40, 40, 40), (40, 40, 40)]]] ∧
    cleanSprite [img12] (0, 0) 3 =
      some [(List.range 4).map fun y => List.replicate 4 (10 * y, 10 * y, 10 * y)] := by
  constructor <;> decide

/-- C4 counterexample: on the spec's 10×10 scenario, `isolateSprite` with
the white uint8 background and tolerance 10 does not return the expected
all-zero-except-the-black-square frame `zeros10`. -/
theorem isolate_scenario_counterexample :
    isolateSprite [frame10] whiteBg10 10 false ≠ some [zeros10] := by
  decide

/-- C4 (amended): on that scenario the wrapped uint8 limits
(`255 + 10 ≡ 9 (mod 256)`) make the in-range test unsatisfiable, every
pixel is marked foreground, the single connected component keeps label 1
as the first-maximal count, and the masked result is the input frame
unchanged. -/
theorem isolate_scenario_returns_input :
    isolateSprite [frame10] whiteBg10 10 false = some [frame10] := by
  decide

/-- C9 counterexample: the four frame-consuming extractor operations do
not raise on empty input — `cropSprite` and `saveSprite` print a message
and return `None`, while `cleanSprite` and `isolateSprite` silently return
the empty list. -/
theorem extractor_empty_counterexample :
    cropSprite [] 0 0 2 2 = none ∧ cleanSprite [] (0, 0) 3 = some [] ∧
    isolateSprite [] whiteBg10 10 false = some [] ∧
    saveSprite [] = none := by
  refine ⟨rfl, rfl, rfl, rfl⟩

/-- C9 (amended): for every argument choice, an empty input sequence makes
`cropSprite` and `saveSprite` return `None` without raising and makes
`cleanSprite` and `isolateSprite` return the empty list; in every case no
output frame or file is produced. -/
theorem extractor_empty_behavior (x y w h : ℤ) (ref : ℤ × ℤ) (b : ℕ)
    (bg : Img3) (lim : ℕ) (tog : Bool) :
    cropSprite [] x y w h = none ∧ cleanSprite [] ref b = some [] ∧
    isolateSprite [] bg lim tog = some [] ∧ saveSprite [] = none :=
  ⟨rfl, rfl, rfl, rfl⟩

/-- `listModify` leaves every other index unchanged. -/
theorem listModify_get?_ne {α : Type} :
    ∀ (l : List α) (n : ℕ) (f : α → α) (m : ℕ), m ≠ n →
      (listModify l n f).get? m = l.get? m
  | [], _, _, _, _ => rfl
  | a :: as, 0, f, 0, h => absurd rfl h
  | a :: as, 0, f, m + 1, _ => rfl
  | a :: as, n + 1, f, 0, _ => rfl
  | a :: as, n + 1, f, m + 1, h =>
    listModify_get?_ne as n f m (fun hmn => h (by omega))

/-- C3 counterexample: after `save(2)`, rewriting the position list of
committed frame 0 also changes committed frame 1 (both `frameList` entries
reference the same instruction dict), contradicting the claimed
independence of the `repeatCount` copies. -/
theorem save_aliasing_counterexample :
    getCommitted mutatedState 1 ≠ getCommitted savedState 1 ∧
    getCommitted mutatedState 1 = getCommitted mutatedState 0 := by
  decide

/-- C3 (amended): the `repeatCount` entries appended by one `save` call are
one shared reference (any two entries past the old frame list are equal),
the state invariant is preserved, and — because `self.instr` is rebound to
a fresh dict — mutating the pending buffer with a later `add` leaves every
committed frame's contents unchanged. -/
theorem save_committed_aliasing (s : FrameState) (k : ℕ) (hInv : FrameInv s) :
    (∀ i j ai aj, s.frameList.length ≤ i → s.frameList.length ≤ j →
        (frameSave s k).frameList.get? i = some ai →
        (frameSave s k).frameList.get? j = some aj → ai = aj) ∧
    FrameInv (frameSave s k) ∧
    (∀ img pos a rot sc fl i,
        getCommitted (frameAdd (frameSave s k) img pos a rot sc fl) i =
          getCommitted (frameSave s k) i) := by
  obtain ⟨hAddr, hMem⟩ := hInv
  have hNewInv : FrameInv (frameSave s k) := by
    constructor
    · simp [frameSave]
    · intro a ha
      simp only [frameSave] at ha ⊢
      rcases List.mem_append.mp ha with h | h
      · exact lt_of_lt_of_le (hMem a h) (by omega)
      · rw [List.eq_of_mem_replicate h]; omega
  refine ⟨?_, hNewInv, ?_⟩
  · intro i j ai aj hi hj hgi hgj
    have lift : ∀ m am, s.frameList.length ≤ m →
        (frameSave s k).frameList.get? m = some am → am = s.instrAddr := by
      intro m am hm hg
      rw [show (frameSave s k).frameList = s.frameList ++ List.replicate k s.instrAddr from rfl,
        List.get?_append_right hm] at hg
      exact List.eq_of_mem_replicate (List.get?_mem hg)
    rw [lift i ai hi hgi, lift j aj hj hgj]
  · intro img pos a rot sc fl i
    simp only [getCommitted, frameAdd]
    cases hg : (frameSave s k).frameList.get? i with
    | none => rfl
    | some addr =>
      have haddr : addr < (frameSave s k).instrAddr :=
        hNewInv.2 addr (List.get?_mem hg)
      simp only [Option.some_bind]
      exact listModify_get?_ne _ _ _ _ (by omega)

/-- C3 witness: the amended statement applied at the freshly constructed
frame with `repeatFrames = 2`. -/
theorem save_committed_aliasing_witness :
    getCommitted (frameAdd (frameSave frameNew 2) [[(1, 1, 1)]] (0, 0) 1 0 1
        (false, false)) 0 =
      getCommitted (frameSave frameNew 2) 0 :=
  (save_committed_aliasing frameNew 2 ⟨rfl, by simp [frameNew]⟩).2.2
    [[(1, 1, 1)]] (0, 0) 1 0 1 (false, false) 0

/-- C7: the cursor update of `setCurSprite` — add `startIndex`, then either
increment or reset — equals the claimed one-shot transition
`advance(start) = if s+start < N-1 then s+start+1 else -1`, the new value
is both stored and returned, and it stays inside `[-1, N-1]`. -/
theorem setCurSprite_transition (s start : ℤ) (N : ℕ) (hN : 1 ≤ N)
    (hs1 : -1 ≤ s) (hs2 : s ≤ (N : ℤ) - 1) (hstart : 0 ≤ start) :
    setCurSprite ⟨s⟩ N start =
      (⟨if s + start < (N : ℤ) - 1 then s + start + 1 else -1⟩,
        if s + start < (N : ℤ) - 1 then s + start + 1 else -1) ∧
    -1 ≤ (if s + start < (N : ℤ) - 1 then s + start + 1 else -1) ∧
    (if s + start < (N : ℤ) - 1 then s + start + 1 else -1) ≤ (N : ℤ) - 1 := by
  simp only [setCurSprite]
  split
  · exact ⟨rfl, by omega, by omega⟩
  · exact ⟨rfl, by omega, by omega⟩

/-- C7 witness: the transition applied at cursor 0, `startIndex = 1`, on a
3-image event. -/
theorem setCurSprite_transition_witness :
    setCurSprite ⟨0⟩ 3 1 = (⟨2⟩, 2) ∧ -1 ≤ (2 : ℤ) ∧ (2 : ℤ) ≤ (3 : ℤ) - 1 := by
  have h := setCurSprite_transition 0 1 3 (by norm_num) (by norm_num) (by norm_num)
    (by norm_num)
  norm_num at h ⊢
  exact h

/-- C10: over an opaque destination pixel, an alpha-255 source pixel
replaces the destination channels exactly, and an alpha-0 source pixel
leaves them exactly unchanged, per the accumulated-alpha over formula
computed by `_layerSprite`. -/
theorem compositePixel_opaque_transparent (sb sg sr db dg dr : ℕ)
    (h1 : sb < 256) (h2 : sg < 256) (h3 : sr < 256) (h4 : db < 256)
    (h5 : dg < 256) (h6 : dr < 256) :
    compositePixel (sb, sg, sr, 255) (db, dg, dr, 255) = some (sb, sg, sr, 255) ∧
    compositePixel (sb, sg, sr, 0) (db, dg, dr, 255) = some (db, dg, dr, 255) :=
  ⟨compositePixel_opaque_src sb sg sr db dg dr h1 h2 h3,
   compositePixel_transparent_src sb sg sr db dg dr h4 h5 h6⟩

/-- C10 witness: the compositing property at concrete channel values. -/
theorem compositePixel_opaque_transparent_witness :
    compositePixel (10, 20, 30, 255) (1, 2, 3, 255) = some (10, 20, 30, 255) ∧
    compositePixel (10, 20, 30, 0) (1, 2, 3, 255) = some (1, 2, 3, 255) :=
  compositePixel_opaque_transparent 10 20 30 1 2 3 (by norm_num) (by norm_num)
    (by norm_num) (by norm_num) (by norm_num) (by norm_num)

/-- `optMap` preserves the list length. -/
theorem optMap_length {α β : Type} (f : α → Option β) :
    ∀ (l : List α) (out : List β), optMap f l = some out → out.length = l.length := by
  intro l
  induction l with
  | nil =>
    intro out h
    simp only [optMap, Option.some.injEq] at h
    simp [← h]
  | cons a as ih =>
    intro out h
    simp only [optMap] at h
    cases hfa : f a <;> rw [hfa] at h
    · simp at h
    · cases hrest : optMap f as <;> rw [hrest] at h
      · simp at h
      · simp only [Option.some.injEq] at h
        simp [← h, ih _ hrest]

/-- Index-wise characterisation of a successful `optMap`. -/
theorem optMap_get? {α β : Type} (f : α → Option β) :
    ∀ (l : List α) (out : List β) (i : ℕ) (x : α), optMap f l = some out →
      l.get? i = some x → ∃ y, f x = some y ∧ out.get? i = some y := by
  intro l
  induction l with
  | nil => intro out i x _ hg; simp at hg
  | cons a as ih =>
    intro out i x h hg
    simp only [optMap] at h
    cases hfa : f a <;> rw [hfa] at h
    · simp at h
    · cases hrest : optMap f as <;> rw [hrest] at h
      · simp at h
      · simp only [Option.some.injEq] at h
        subst h
        cases i with
        | zero =>
          simp only [List.get?_cons_zero, Option.some.injEq] at hg
          subst hg
          exact ⟨_, hfa, rfl⟩
        | succ n =>
          simp only [List.get?_cons_succ] at hg ⊢
          exact ih _ n x hrest hg

/-- `setSeg` preserves the row length. -/
theorem setSeg_length {α : Type} :
    ∀ (row : List α) (x : ℕ) (new : List α), (setSeg row x new).length = row.length
  | [], _, _ => rfl
  | _ :: _, 0, [] => rfl
  | _ :: rs, 0, _ :: ns => by simp [setSeg, setSeg_length rs 0 ns]
  | _ :: rs, x + 1, new => by simp [setSeg, setSeg_length rs x new]

/-- `pasteGrid` preserves the row count. -/
theorem pasteGrid_length {α : Type} :
    ∀ (frame : List (List α)) (y x : ℕ) (comp : List (List α)),
      (pasteGrid frame y x comp).length = frame.length
  | [], _, _, _ => rfl
  | _ :: fs, Nat.succ y, x, comp => by simp [pasteGrid, pasteGrid_length fs y x comp]
  | _ :: _, 0, _, [] => rfl
  | _ :: fs, 0, x, _ :: cs => by simp [pasteGrid, pasteGrid_length fs 0 x cs]

/-- `pasteGrid` preserves the first row's length. -/
theorem pasteGrid_head_length {α : Type} :
    ∀ (frame : List (List α)) (y x : ℕ) (comp : List (List α)),
      ((pasteGrid frame y x comp).headD []).length = (frame.headD []).length
  | [], _, _, _ => rfl
  | _ :: _, Nat.succ _, _, _ => rfl
  | _ :: _, 0, _, [] => rfl
  | _ :: _, 0, _, _ :: _ => by simp [pasteGrid, setSeg_length]

/-- Mapping a function over every pixel preserves the grid shape. -/
theorem gridDims_mapmap {α β : Type} (f : α → β) (g : List (List α)) :
    gridDims (g.map (List.map f)) = gridDims g := by
  cases g with
  | nil => rfl
  | cons r rs => simp [gridDims]

/-- The white canvas built from a sprite's shape has that shape. -/
theorem whiteCanvas_gridDims (t : Img4) :
    gridDims (whiteCanvas (gridDims t).1 (gridDims t).2) = gridDims t := by
  cases t with
  | nil => rfl
  | cons r rs => simp [whiteCanvas, gridDims, List.replicate]

/-- Shape of a guarded mapped option: a successful
`if c then none else o.map g` is `g` of some value. -/
theorem ite_none_map_eq_some {α β : Type} (c : Prop) [Decidable c] (g : α → β)
    (o : Option α) (out : β) (h : (if c then none else o.map g) = some out) :
    ∃ a, o = some a ∧ g a = out := by
  split at h
  · simp at h
  · exact Option.map_eq_some'.mp h

/-- A successful `_layerSprite` call returns a frame of the same shape. -/
theorem layerSprite_dims (sprite frame : Img4) (pos : ℤ × ℤ) (out : Img4)
    (h : layerSprite sprite frame pos = some out) : gridDims out = gridDims frame := by
  simp only [layerSprite] at h
  obtain ⟨comp, _, hout⟩ := ite_none_map_eq_some _ _ _ _ h
  rw [← hout]
  simp only [gridDims, pasteGrid_length, pasteGrid_head_length]

/-- Layering any object list onto a canvas preserves the canvas shape. -/
theorem layerFold_dims :
    ∀ (objs : List (Img4 × (ℤ × ℤ))) (acc out : Img4),
      layerFold objs acc = some out → gridDims out = gridDims acc := by
  intro objs
  induction objs with
  | nil =>
    intro acc out h
    simp only [layerFold, Option.some.injEq] at h
    rw [← h]
  | cons o os ih =>
    intro acc out h
    simp only [layerFold] at h
    cases hls : layerSprite o.1 acc o.2 <;> rw [hls] at h
    · simp at h
    · rename_i acc'
      exact (ih acc' out h).trans (layerSprite_dims o.1 acc o.2 acc' hls)

/-- A successfully rendered frame has the shape of that frame's first
(bottom-layer) transformed sprite. -/
theorem renderFrame_dims (key : ℕ) (f : Instr) (out : Img3)
    (h : renderFrame key f = some out) :
    ∃ t pos rest, frameObjs key f = some ((t, pos) :: rest) ∧
      gridDims out = gridDims t := by
  simp only [renderFrame] at h
  cases hFO : frameObjs key f <;> rw [hFO] at h
  · simp at h
  · rename_i objs
    cases objs with
    | nil => simp at h
    | cons first rest =>
      dsimp only at h
      cases hLF : layerFold (first :: rest)
          (whiteCanvas (gridDims first.1).1 (gridDims first.1).2) <;> rw [hLF] at h
      · simp at h
      · rename_i final
        simp only [Option.some.injEq] at h
        refine ⟨first.1, first.2, rest, by simpa using hFO, ?_⟩
        rw [← h]
        calc gridDims (dropAlpha final) = gridDims final := gridDims_mapmap _ _
          _ = gridDims (whiteCanvas (gridDims first.1).1 (gridDims first.1).2) :=
            layerFold_dims _ _ _ hLF
          _ = gridDims first.1 := whiteCanvas_gridDims first.1

/-- C2 (amended): in one render call the canvas is established per frame —
every output frame has exactly the shape of the post-transform bottom-layer
sprite of its *own* committed frame, not the shape fixed by the first
frame. -/
theorem render_canvas_per_frame (key : ℕ) (fl : List Instr) (outs : List Img3)
    (h : render key fl = some outs) :
    outs.length = fl.length ∧
    ∀ i fi oi, fl.get? i = some fi → outs.get? i = some oi →
      ∃ t pos rest, frameObjs key fi = some ((t, pos) :: rest) ∧
        gridDims oi = gridDims t := by
  constructor
  · exact optMap_length _ fl outs h
  · intro i fi oi hfi hoi
    obtain ⟨y, hy, hout⟩ := optMap_get? (renderFrame key) fl outs i fi h hfi
    have hyo : y = oi := by
      rw [hout] at hoi
      exact Option.some.inj hoi
    subst hyo
    exact renderFrame_dims key fi y hy

/-- C2 witness: the per-frame canvas sizing applied to the concrete
single-frame render of `cFrame0`. -/
theorem render_canvas_per_frame_witness :
    ∃ t pos rest, frameObjs 0 cFrame0 = some ((t, pos) :: rest) ∧
      gridDims cOut0 = gridDims t := by
  have h1 : compositePixel (1, 2, 3, 255) (255, 255, 255, 255) = some (1, 2, 3, 255) :=
    compositePixel_opaque_src 1 2 3 255 255 255 (by norm_num) (by norm_num) (by norm_num)
  have hf1 : (1 : ℤ).fdiv 2 = 0 := rfl
  have h : render 0 [cFrame0] = some [cOut0] := by
    simp [render, renderFrame, frameObjs, processObj, optMap, layerFold, layerSprite,
      compositeGrid, flipSprite, fliplr, flipud, scaleSprite, rotateSprite, alphaSprite,
      whiteCanvas, gridDims, pasteGrid, setSeg, pySlice, dropAlpha, cFrame0, cOut0,
      alphaVal_one, h1, hf1]
  exact (render_canvas_per_frame 0 [cFrame0] [cOut0] h).2 0 cFrame0 cOut0 rfl rfl

/-- C2 counterexample: rendering two committed frames whose bottom-layer
sprites have different sizes produces a 1×1 first output and a 2×2 second
output — the canvas is re-created inside the per-frame loop, so the second
frame does not reuse the first frame's 1×1 canvas size. -/
theorem render_canvas_not_shared_counterexample :
    render 0 [cFrame0, cFrame1] = some [cOut0, cOut1] ∧
    gridDims cOut1 ≠ gridDims cOut0 := by
  have h1 : compositePixel (1, 2, 3, 255) (255, 255, 255, 255) = some (1, 2, 3, 255) :=
    compositePixel_opaque_src 1 2 3 255 255 255 (by norm_num) (by norm_num) (by norm_num)
  have h2 : compositePixel (9, 9, 9, 255) (255, 255, 255, 255) = some (9, 9, 9, 255) :=
    compositePixel_opaque_src 9 9 9 255 255 255 (by norm_num) (by norm_num) (by norm_num)
  have hf1 : (1 : ℤ).fdiv 2 = 0 := rfl
  have hf2 : (2 : ℤ).fdiv 2 = 1 := rfl
  refine ⟨?_, by decide⟩
  simp [render, renderFrame, frameObjs, processObj, optMap, layerFold, layerSprite,
    compositeGrid, flipSprite, fliplr, flipud, scaleSprite, rotateSprite, alphaSprite,
    whiteCanvas, gridDims, pasteGrid, setSeg, pySlice, dropAlpha, cFrame0, cFrame1,
    cOut0, cOut1, alphaVal_one, h1, h2, hf1, hf2]

end SpriteTools
